import Mathlib

/-!
Verification of the `@kozy/tracing` context-propagation and span-lifecycle core.

The development shallowly embeds the pieces of the repository that the
claims are about:

* the span utilities and the `withSpan` lifecycle wrapper
  (`src/core/span-utils.ts`, shipped as `src/unnamed/part_003`);
* the request phase and the response-finish callback of the Express
  tracing middleware (`src/src/http/express.ts`);
* the Service Bus consumer wrapper `withServiceBusTracing`
  (`src/service-bus/index.ts`, shipped as `src/unnamed/part_005`);
* the `src/core/trace-context.ts` codec functions
  (`extractTraceIdFromTraceparent`, `extractCorrelationId`,
  `generateCorrelationId`, `extractTraceFromServiceBusMessage`), whose
  source file is not part of the sources; these are modelled from the
  spec as indicated in their doc comments.

JavaScript execution is modelled as follows: an `async` function either
settles with a value (`Except.ok`) or settles with a thrown value
(`Except.error`); a cancellation surfaces as a rejection (for example an
abort error) and therefore takes the `Except.error` path.  Spans are
records mutated by explicit pure update functions mirroring the
OpenTelemetry JS SDK operations used by the repository; statuses are
last-write-wins, exactly as the specification's state machine describes
("last status-set before finalize wins").
-/

namespace Tracing

/-- Span status codes, as in `@opentelemetry/api` `SpanStatusCode`. -/
inductive StatusCode where
  | UNSET
  | OK
  | ERROR
deriving DecidableEq, Repr

/-- Span kinds, as in `@opentelemetry/api` `SpanKind`. -/
inductive Kind where
  | INTERNAL
  | SERVER
  | CLIENT
  | PRODUCER
  | CONSUMER
deriving DecidableEq, Repr

/-- Span attribute values: `string | number | boolean | string[]`.
Numbers are modelled as integers; every numeric attribute the verified
code writes is an integer (an HTTP status code or a delivery count). -/
inductive AttrValue where
  | str (s : String)
  | num (n : Int)
  | bool (b : Bool)
  | strList (l : List String)
deriving DecidableEq, Repr

/-- A JavaScript thrown value: either an `Error` instance (name, message,
optional stack trace) or any other thrown value, represented opaquely. -/
inductive Thrown where
  | err (name message : String) (stack : Option String)
  | nonErr (val : String)
deriving DecidableEq, Repr

/-- The message `withSpan` derives from a thrown value for the span status:
`error instanceof Error ? error.message : 'Unknown error'`
(src/unnamed/part_003, line 183). -/
def Thrown.statusMessage : Thrown → String
  | .err _ m _ => m
  | .nonErr _ => "Unknown error"

/-- A span as the repository observes it through the OpenTelemetry SDK:
name, kind, attributes (reads are last-write-wins), events, status,
recorded exceptions, and a count of `span.end()` calls. -/
structure Span where
  name : String
  kind : Kind
  attributes : List (String × AttrValue)
  events : List (String × List (String × AttrValue))
  statusCode : StatusCode
  statusMessage : Option String
  exceptions : List Thrown
  endCount : Nat
deriving DecidableEq, Repr

/-- `span.setAttribute(key, value)`: record the write; reads resolve to the
most recent write of a key. -/
def Span.setAttribute (s : Span) (k : String) (v : AttrValue) : Span :=
  { s with attributes := s.attributes ++ [(k, v)] }

/-- `span.setAttributes(attributes)`: record every write of the batch. -/
def Span.setAttrBatch (s : Span) (kvs : List (String × AttrValue)) : Span :=
  { s with attributes := s.attributes ++ kvs }

/-- Read an attribute: the most recent write of the key wins. -/
def Span.getAttribute (s : Span) (k : String) : Option AttrValue :=
  s.attributes.reverse.lookup k

/-- `span.addEvent(name, attributes)`. -/
def Span.addEvent (s : Span) (n : String) (attrs : List (String × AttrValue)) : Span :=
  { s with events := s.events ++ [(n, attrs)] }

/-- `span.setStatus({code, message})`: last write wins, as in the
OpenTelemetry JS SDK and in the specification's span state machine. -/
def Span.setStatus (s : Span) (c : StatusCode) (m : Option String) : Span :=
  { s with statusCode := c, statusMessage := m }

/-- `span.recordException(error)`. -/
def Span.recordException (s : Span) (e : Thrown) : Span :=
  { s with exceptions := s.exceptions ++ [e] }

/-- `span.end()`: count the finalize call. -/
def Span.endSpan (s : Span) : Span :=
  { s with endCount := s.endCount + 1 }

/-- One mutation the wrapped function can perform through the span handle.
The grammar mirrors the mutation surface the lifecycle grants to the
wrapped code (set/merge attributes, append an event, set a status, record
an exception); finalization is owned by the lifecycle itself. -/
inductive SpanAction where
  | setAttr (k : String) (v : AttrValue)
  | setAttrs (kvs : List (String × AttrValue))
  | addEvent (n : String) (attrs : List (String × AttrValue))
  | setStatus (c : StatusCode) (m : Option String)
  | recordExc (e : Thrown)
deriving DecidableEq, Repr

/-- Apply one handle mutation to a span. -/
def Span.applyAction (s : Span) : SpanAction → Span
  | .setAttr k v => s.setAttribute k v
  | .setAttrs kvs => s.setAttrBatch kvs
  | .addEvent n attrs => s.addEvent n attrs
  | .setStatus c m => s.setStatus c m
  | .recordExc e => s.recordException e

/-- Apply the mutations the wrapped function performs, in order. -/
def Span.applyAll (s : Span) (acts : List SpanAction) : Span :=
  acts.foldl Span.applyAction s

/-- `tracer.startActiveSpan(name, {kind, attributes}, ...)`: the freshly
created span, before the wrapped function runs. -/
def startSpan (name : String) (kind : Kind) (attrs : List (String × AttrValue)) : Span :=
  { name := name
    kind := kind
    attributes := attrs
    events := []
    statusCode := .UNSET
    statusMessage := none
    exceptions := []
    endCount := 0 }

/-- Shallow embedding of `withSpan` (src/unnamed/part_003, lines 159-192).

The wrapped `fn` is modelled by the list of span mutations it performs
through its handle (`body`) together with how its promise settles
(`outcome`); a cancellation mid-execution surfaces as a rejection and is
an `Except.error` outcome.  The lifecycle mirrors the source's
`try`/`catch`/`finally`: on settlement with a value it sets status `OK`
and returns the value; on settlement with a thrown value it sets status
`ERROR` with the message derived from the thrown value, records the
exception and re-throws the same value; `span.end()` runs in `finally`
on both paths. -/
def withSpan {T : Type} (spanName : String) (kind : Kind)
    (attrs : List (String × AttrValue)) (body : List SpanAction)
    (outcome : Except Thrown T) : Span × Except Thrown T :=
  let s0 := startSpan spanName kind attrs
  let s1 := s0.applyAll body
  match outcome with
  | .ok v => (((s1.setStatus .OK none).endSpan), .ok v)
  | .error e =>
      ((((s1.setStatus .ERROR (some e.statusMessage)).recordException e).endSpan), .error e)

/-- `getCurrentSpan` (src/unnamed/part_003, lines 8-10): the ambient
active span, or `none` when no span is active. -/
def getCurrentSpan (active : Option Span) : Option Span := active

/-- `addSpanAttribute` (src/unnamed/part_003, lines 24-32): mutate the
active span if there is one, otherwise do nothing.  The result is the
updated ambient slot. -/
def addSpanAttribute (active : Option Span) (k : String) (v : AttrValue) : Option Span :=
  match getCurrentSpan active with
  | some s => some (s.setAttribute k v)
  | none => none

/-- `addSpanAttributes` (src/unnamed/part_003, lines 48-55). -/
def addSpanAttributes (active : Option Span) (kvs : List (String × AttrValue)) : Option Span :=
  match getCurrentSpan active with
  | some s => some (s.setAttrBatch kvs)
  | none => none

/-- `addSpanEvent` (src/unnamed/part_003, lines 71-79). -/
def addSpanEvent (active : Option Span) (n : String)
    (attrs : List (String × AttrValue)) : Option Span :=
  match getCurrentSpan active with
  | some s => some (s.addEvent n attrs)
  | none => none

/-- `recordException` (src/unnamed/part_003, lines 97-105).  The second
argument is forwarded to the SDK call and does not affect the properties
verified here. -/
def recordException (active : Option Span) (e : Thrown)
    (_attrs : List (String × AttrValue)) : Option Span :=
  match getCurrentSpan active with
  | some s => some (s.recordException e)
  | none => none

/-- `setSpanStatus` (src/unnamed/part_003, lines 118-126). -/
def setSpanStatus (active : Option Span) (c : StatusCode) (m : Option String) : Option Span :=
  match getCurrentSpan active with
  | some s => some (s.setStatus c m)
  | none => none

/-- JavaScript truthiness of an optional string: `undefined` and the
empty string are falsy, every other string is truthy. -/
def truthy : Option String → Bool
  | none => false
  | some s => s != ""

/-- The characters of a string, lower-cased. -/
def lowerChars (s : String) : List Char :=
  s.data.map Char.toLower

/-- Case-insensitive header lookup.  The carrier is the request's header
list; Node.js normalizes header names to lower case, which is exactly the
case-insensitive read the specification requires for HTTP-shaped
carriers. -/
def lookupHeaderCI (carrier : List (String × String)) (key : String) : Option String :=
  (carrier.find? (fun p => lowerChars p.1 == lowerChars key)).map Prod.snd

/-- Modelled from the spec: the correlation-id read of
`extractFromCarrier` (`extractCorrelationId` of
`src/core/trace-context.ts`, which is not among the sources).  Per §4.2
it reads a configurable correlation-id field, case-insensitively for
HTTP-header-shaped carriers, and leaves absent fields unset.  The
`createTracingMiddleware` call site passes only the carrier, so the
default field name `x-correlation-id` applies. -/
def extractCorrelationId (carrier : List (String × String)) : Option String :=
  lookupHeaderCI carrier "x-correlation-id"

/-- Modelled from the spec: `generateCorrelationId` / `generateId` of
`src/core/trace-context.ts`, which is not among the sources.  Per §4.2 it
produces a collision-resistant random identifier treated as opaque; the
randomness source is modelled as an entropy seed and the generator as a
never-empty function of it. -/
def generateCorrelationId (entropy : Nat) : String :=
  String.mk ('c' :: Nat.toDigits 10 entropy)

/-- Lower-case hexadecimal digit, as used by the W3C trace-context
field grammar. -/
def isLowerHexDigit (c : Char) : Bool :=
  ('0' ≤ c && c ≤ '9') || ('a' ≤ c && c ≤ 'f')

/-- Split a character list on `'-'` separators (the W3C `traceparent`
field separator). -/
def splitOnDash : List Char → List (List Char)
  | [] => [[]]
  | c :: rest =>
      if c = '-' then [] :: splitOnDash rest
      else
        match splitOnDash rest with
        | [] => [[c]]
        | g :: gs => (c :: g) :: gs

/-- Validate and project the four `traceparent` fields:
`{2-hex version}-{32-hex trace-id}-{16-hex parent-id}-{2-hex flags}`,
rejecting the all-zero trace id. -/
def parseTraceparentChars (cs : List Char) : Option String :=
  match splitOnDash cs with
  | [v, t, p, f] =>
      if (v.all isLowerHexDigit && v.length == 2)
          && (t.all isLowerHexDigit && t.length == 32 && !(t.all (· == '0')))
          && (p.all isLowerHexDigit && p.length == 16)
          && (f.all isLowerHexDigit && f.length == 2) then
        some (String.mk t)
      else none
  | _ => none

/-- Modelled from the spec: `extractTraceIdFromTraceparent` /
`parseTraceparent` of `src/core/trace-context.ts`, which is not among
the sources.  Per §4.2 and §6 it accepts the W3C format
`{version}-{32 hex trace-id}-{16 hex parent-id}-{flags}` and returns
nothing when the header is absent, malformed, or the trace id is the
all-zero sentinel; it never throws (the model is a total function into
`Option`). -/
def extractTraceIdFromTraceparent (header : Option String) : Option String :=
  match header with
  | none => none
  | some h => parseTraceparentChars h.data

/-- The propagated identity stored in `AsyncLocalStorage`
(`TraceContext` of `src/core/trace-context.ts`, fields per spec §3). -/
structure TraceContext where
  correlationId : Option String
  traceId : Option String
  userId : Option String
  requestId : Option String
  eventId : Option String
  eventType : Option String
deriving DecidableEq, Repr

/-- The configuration of `createTracingMiddleware`
(`TracingMiddlewareOptions`, src/src/http/express.ts lines 15-46),
restricted to the fields that influence the trace context and the
response headers.  The two hook fields (`extractUserId`,
`additionalAttributes`) only feed span attributes and enter the model as
explicit inputs of `runMiddleware`. -/
structure TracingMiddlewareOptions where
  correlationIdHeader : String
  generateCorrelationId : Bool
  addCorrelationIdToResponse : Bool
  addTraceIdToResponse : Bool
deriving DecidableEq, Repr

/-- What the request phase of the middleware produces: the identity it
installs in `AsyncLocalStorage` and the response headers it writes. -/
structure MiddlewareResult where
  installedContext : TraceContext
  responseHeaders : List (String × String)
deriving DecidableEq, Repr

/-- Whether a header list contains an entry with the given name. -/
def hasHeader (l : List (String × String)) (k : String) : Bool :=
  l.any (fun p => p.1 == k)

/-- The conditional correlation response header
(src/src/http/express.ts, lines 116-119): written under the configured
name when the correlation id is truthy and `addCorrelationIdToResponse`
is enabled. -/
def corrSegment (opts : TracingMiddlewareOptions) (correlationId : Option String) :
    List (String × String) :=
  if truthy correlationId && opts.addCorrelationIdToResponse then
    [(opts.correlationIdHeader, correlationId.getD "")]
  else []

/-- The conditional `x-trace-id` response header
(src/src/http/express.ts, lines 127-130): written when the context's
trace id is truthy and `addTraceIdToResponse` is enabled. -/
def traceSegment (opts : TracingMiddlewareOptions) (ctxTraceId : Option String) :
    List (String × String) :=
  if truthy ctxTraceId && opts.addTraceIdToResponse then
    [("x-trace-id", ctxTraceId.getD "")]
  else []

/-- Shallow embedding of the request phase of `createTracingMiddleware`
(src/src/http/express.ts, lines 91-130): correlation-id extraction or
generation, traceparent parsing, request-id generation, context
installation, and response-header writing.

The two `generateCorrelationId()` calls are modelled against an entropy
seed: the (conditional) correlation-id generation of line 96 consumes
seed `entropy`, the request-id generation of line 106 consumes
`entropy + 1`.  `activeSpanTraceId` stands for the trace id of the span
the OpenTelemetry auto-instrumentation may have activated: per the
comment at line 124, `getCurrentTraceContext()` yields the installed
trace id when set and otherwise the active span's (modelled from the
spec, the function lives in the missing `src/core/trace-context.ts`).
`extractedUserId` is the result of the configured `extractUserId` hook.
The span-attribute enrichment of lines 132-165 and the response-finish
callback of lines 168-182 (see `onResponseFinish`) are outside this
definition. -/
def runMiddleware (opts : TracingMiddlewareOptions)
    (reqHeaders : List (String × String)) (entropy : Nat)
    (activeSpanTraceId : Option String) (extractedUserId : Option String) :
    MiddlewareResult :=
  let extracted := extractCorrelationId reqHeaders
  let correlationId : Option String :=
    if !(truthy extracted) && opts.generateCorrelationId then
      some (generateCorrelationId entropy)
    else extracted
  let traceId := extractTraceIdFromTraceparent (lookupHeaderCI reqHeaders "traceparent")
  let requestId := generateCorrelationId (entropy + 1)
  let installed : TraceContext :=
    { correlationId := correlationId
      traceId := traceId
      userId := extractedUserId
      requestId := some requestId
      eventId := none
      eventType := none }
  let ctxTraceId : Option String :=
    match traceId with
    | some t => some t
    | none => activeSpanTraceId
  { installedContext := installed
    responseHeaders :=
      corrSegment opts correlationId
        ++ [("x-request-id", requestId)]
        ++ traceSegment opts ctxTraceId }

/-- The `res.on('finish')` callback of `createTracingMiddleware`
(src/src/http/express.ts, lines 168-182): record the final status code
as a span attribute, then set span status `ERROR` for codes `>= 500`
and `OK` otherwise (the `>= 400` branch deliberately sets `OK`: client
errors are not span errors). -/
def onResponseFinish (statusCode : Nat) (active : Option Span) : Option Span :=
  let withAttr :=
    addSpanAttributes active
      [("http.response.status_code", AttrValue.num (Int.ofNat statusCode))]
  if 500 ≤ statusCode then
    setSpanStatus withAttr StatusCode.ERROR (some ("HTTP " ++ toString statusCode))
  else if 400 ≤ statusCode then
    setSpanStatus withAttr StatusCode.OK none
  else
    setSpanStatus withAttr StatusCode.OK none

/-- JavaScript `a || d` for an optional string `a`: the value when truthy,
the default otherwise. -/
def orTruthy (o : Option String) (d : String) : String :=
  match o with
  | some s => if s == "" then d else s
  | none => d

/-- The fields of an Azure `ServiceBusReceivedMessage` the wrapper reads.
The timestamp is kept as its ISO string, the message id as an optional
string. -/
structure SBMessage where
  applicationProperties : List (String × String)
  messageId : Option String
  subject : Option String
  enqueuedTimeUtc : Option String
  deliveryCount : Option Nat
deriving DecidableEq, Repr

/-- Modelled from the spec: `extractTraceFromServiceBusMessage` of
`src/core/trace-context.ts`, which is not among the sources.  Per §4.2
and §6 it reads the string-valued application-properties keys
`correlationId`, `traceId`, `eventId`, `eventType`, `userId`; keys
absent in the carrier are left unset, never defaulted. -/
def extractTraceFromServiceBusMessage (props : List (String × String)) : TraceContext :=
  { correlationId := props.lookup "correlationId"
    traceId := props.lookup "traceId"
    userId := props.lookup "userId"
    requestId := none
    eventId := props.lookup "eventId"
    eventType := props.lookup "eventType" }

/-- The read-only context handed to the user's message handler
(`MessageHandlerContext`, src/unnamed/part_005 lines 22-47). -/
structure MessageHandlerContext where
  correlationId : Option String
  traceId : Option String
  eventId : Option String
  eventType : Option String
  userId : Option String
deriving DecidableEq, Repr

/-- The `spanName` option of `withServiceBusTracing`: absent, a plain
string, or a function of the message. -/
inductive SBSpanName where
  | unset
  | fixed (s : String)
  | fromMessage (f : SBMessage → String)

/-- Span-name resolution of `withServiceBusTracing`
(src/unnamed/part_005, lines 103-111): a function option is applied to
the message, a truthy string option is used as is, and otherwise the
name is derived from the (truthy) event type. -/
def resolveSBSpanName (o : SBSpanName) (msg : SBMessage) (eventType : Option String) :
    String :=
  match o with
  | .fromMessage f => f msg
  | .fixed s => if s == "" then "consume " ++ orTruthy eventType "message" else s
  | .unset => "consume " ++ orTruthy eventType "message"

/-- A span-attribute entry written only when the value is truthy. -/
def optAttr (key : String) (o : Option String) : List (String × AttrValue) :=
  match o with
  | some s => if s == "" then [] else [(key, AttrValue.str s)]
  | none => []

/-- The attributes `withServiceBusTracing` sets on its consumer span
(src/unnamed/part_005, lines 127-167): messaging tags, message id,
destination (from the message subject), the identity fields that are
present, enqueue time and delivery count. -/
def sbAttributes (msg : SBMessage) (tc : TraceContext) : List (String × AttrValue) :=
  [("messaging.system", AttrValue.str "servicebus"),
   ("messaging.operation", AttrValue.str "receive"),
   ("messaging.message.id", AttrValue.str (orTruthy msg.messageId "unknown"))]
    ++ optAttr "messaging.destination" msg.subject
    ++ optAttr "correlation.id" tc.correlationId
    ++ optAttr "event.id" tc.eventId
    ++ optAttr "event.type" tc.eventType
    ++ optAttr "user.id" tc.userId
    ++ (match msg.enqueuedTimeUtc with
        | some t => [("messaging.message.enqueued_time", AttrValue.str t)]
        | none => [])
    ++ (match msg.deliveryCount with
        | some n => [("messaging.message.delivery_count", AttrValue.num (Int.ofNat n))]
        | none => [])

/-- What one invocation of the wrapped Service Bus handler produces: the
finished consumer span, the handler's outcome as surfaced to the caller,
and the context object the user handler received. -/
structure SBResult (T : Type) where
  span : Span
  outcome : Except Thrown T
  handlerContext : MessageHandlerContext
deriving Repr

/-- Shallow embedding of `withServiceBusTracing`
(src/unnamed/part_005, lines 79-178): extract the identity from the
message application-properties, generate a correlation id when the
extracted one is not truthy, resolve the span name, build the handler
context, and run the handler inside a CONSUMER-kind `withSpan` whose
body first sets the messaging attributes (plus the configured additional
attributes) and then performs whatever span mutations the user handler
performs.  The user handler is modelled like the wrapped function of
`withSpan`: by the mutations it performs and the way its promise
settles, both depending on the message and on the context it is
handed. -/
def withServiceBusTracing {T : Type} (spanNameOpt : SBSpanName)
    (additionalAttributes : Option (SBMessage → List (String × AttrValue)))
    (handler : SBMessage → MessageHandlerContext → List SpanAction × Except Thrown T)
    (msg : SBMessage) (entropy : Nat) : SBResult T :=
  let tc0 := extractTraceFromServiceBusMessage msg.applicationProperties
  let tc :=
    if truthy tc0.correlationId then tc0
    else { tc0 with correlationId := some (generateCorrelationId entropy) }
  let spanName := resolveSBSpanName spanNameOpt msg tc.eventType
  let hctx : MessageHandlerContext :=
    { correlationId := tc.correlationId
      traceId := tc.traceId
      eventId := tc.eventId
      eventType := tc.eventType
      userId := tc.userId }
  let attrs := sbAttributes msg tc
    ++ (match additionalAttributes with
        | some f => f msg
        | none => [])
  let hres := handler msg hctx
  let r := withSpan spanName Kind.CONSUMER [] (SpanAction.setAttrs attrs :: hres.1) hres.2
  { span := r.1, outcome := r.2, handlerContext := hctx }

/- ------------------------------------------------------------------ -/
/- Theorems                                                           -/
/- ------------------------------------------------------------------ -/

theorem Span.applyAction_endCount (s : Span) (a : SpanAction) :
    (s.applyAction a).endCount = s.endCount := by
  cases a <;> rfl

theorem Span.applyAll_endCount (s : Span) (acts : List SpanAction) :
    (s.applyAll acts).endCount = s.endCount := by
  induction acts generalizing s with
  | nil => rfl
  | cons a as ih =>
      show (Span.applyAll (s.applyAction a) as).endCount = s.endCount
      rw [ih, Span.applyAction_endCount]

theorem Span.applyAction_name (s : Span) (a : SpanAction) :
    (s.applyAction a).name = s.name := by
  cases a <;> rfl

theorem Span.applyAll_name (s : Span) (acts : List SpanAction) :
    (s.applyAll acts).name = s.name := by
  induction acts generalizing s with
  | nil => rfl
  | cons a as ih =>
      show (Span.applyAll (s.applyAction a) as).name = s.name
      rw [ih, Span.applyAction_name]

theorem Span.applyAction_kind (s : Span) (a : SpanAction) :
    (s.applyAction a).kind = s.kind := by
  cases a <;> rfl

theorem Span.applyAll_kind (s : Span) (acts : List SpanAction) :
    (s.applyAll acts).kind = s.kind := by
  induction acts generalizing s with
  | nil => rfl
  | cons a as ih =>
      show (Span.applyAll (s.applyAction a) as).kind = s.kind
      rw [ih, Span.applyAction_kind]

theorem withSpan_kind {T : Type} (spanName : String) (kind : Kind)
    (attrs : List (String × AttrValue)) (body : List SpanAction)
    (outcome : Except Thrown T) :
    ((withSpan spanName kind attrs body outcome).1).kind = kind := by
  cases outcome with
  | ok v =>
      show ((((startSpan spanName kind attrs).applyAll body).setStatus .OK none).endSpan).kind = kind
      simp [Span.endSpan, Span.setStatus, Span.applyAll_kind, startSpan]
  | error e =>
      show (((((startSpan spanName kind attrs).applyAll body).setStatus .ERROR
          (some e.statusMessage)).recordException e).endSpan).kind = kind
      simp [Span.endSpan, Span.setStatus, Span.recordException, Span.applyAll_kind, startSpan]

theorem withSpan_name {T : Type} (spanName : String) (kind : Kind)
    (attrs : List (String × AttrValue)) (body : List SpanAction)
    (outcome : Except Thrown T) :
    ((withSpan spanName kind attrs body outcome).1).name = spanName := by
  cases outcome with
  | ok v =>
      show ((((startSpan spanName kind attrs).applyAll body).setStatus .OK none).endSpan).name = spanName
      simp [Span.endSpan, Span.setStatus, Span.applyAll_name, startSpan]
  | error e =>
      show (((((startSpan spanName kind attrs).applyAll body).setStatus .ERROR
          (some e.statusMessage)).recordException e).endSpan).name = spanName
      simp [Span.endSpan, Span.setStatus, Span.recordException, Span.applyAll_name, startSpan]

theorem withSpan_outcome {T : Type} (spanName : String) (kind : Kind)
    (attrs : List (String × AttrValue)) (body : List SpanAction)
    (outcome : Except Thrown T) :
    (withSpan spanName kind attrs body outcome).2 = outcome := by
  cases outcome <;> rfl

theorem generateCorrelationId_ne_empty (entropy : Nat) :
    generateCorrelationId entropy ≠ "" := by
  intro h
  exact List.cons_ne_nil _ _ (congrArg String.data h)

/-- C1: for every span name, options and wrapped function — the latter
ranging over every mutation sequence it can perform through its handle
and every way its promise can settle (normal return, thrown error, or a
cancellation surfacing as a rejection) — the span created by `withSpan`
is finalized (`span.end()`) exactly once: never zero times and never
twice. -/
theorem withSpan_finalizes_exactly_once {T : Type} (spanName : String) (kind : Kind)
    (attrs : List (String × AttrValue)) (body : List SpanAction)
    (outcome : Except Thrown T) :
    ((withSpan spanName kind attrs body outcome).1).endCount = 1 := by
  cases outcome with
  | ok v =>
      show ((((startSpan spanName kind attrs).applyAll body).setStatus .OK none).endSpan).endCount = 1
      simp [Span.endSpan, Span.setStatus, Span.applyAll_endCount, startSpan]
  | error e =>
      show (((((startSpan spanName kind attrs).applyAll body).setStatus .ERROR
          (some e.statusMessage)).recordException e).endSpan).endCount = 1
      simp [Span.endSpan, Span.setStatus, Span.recordException, Span.applyAll_endCount, startSpan]

/-- C2: when the wrapped function throws an `Error` instance `e`,
`withSpan` records `e` on the span as an exception, sets the span status
to `ERROR` with `e`'s message, and re-raises the very same thrown value
to the caller — it never swallows or replaces the error. -/
theorem withSpan_error_recorded_and_rethrown {T : Type} (spanName : String) (kind : Kind)
    (attrs : List (String × AttrValue)) (body : List SpanAction)
    (name message : String) (stack : Option String) :
    (withSpan spanName kind attrs body
        (Except.error (Thrown.err name message stack) : Except Thrown T)).2
      = Except.error (Thrown.err name message stack) ∧
    ((withSpan spanName kind attrs body
        (Except.error (Thrown.err name message stack) : Except Thrown T)).1).statusCode
      = StatusCode.ERROR ∧
    ((withSpan spanName kind attrs body
        (Except.error (Thrown.err name message stack) : Except Thrown T)).1).statusMessage
      = some message ∧
    Thrown.err name message stack ∈
      ((withSpan spanName kind attrs body
        (Except.error (Thrown.err name message stack) : Except Thrown T)).1).exceptions := by
  refine ⟨rfl, rfl, rfl, ?_⟩
  show Thrown.err name message stack ∈
    ((startSpan spanName kind attrs).applyAll body).exceptions ++ [Thrown.err name message stack]
  simp

/-- C9: when the wrapped function throws a value that is not an `Error`
instance, `withSpan` still sets the span status to `ERROR`, but with the
fixed message `'Unknown error'`; it records the thrown value as an
exception and re-throws the original value to the caller. -/
theorem withSpan_non_error_thrown {T : Type} (spanName : String) (kind : Kind)
    (attrs : List (String × AttrValue)) (body : List SpanAction) (val : String) :
    (withSpan spanName kind attrs body
        (Except.error (Thrown.nonErr val) : Except Thrown T)).2
      = Except.error (Thrown.nonErr val) ∧
    ((withSpan spanName kind attrs body
        (Except.error (Thrown.nonErr val) : Except Thrown T)).1).statusCode
      = StatusCode.ERROR ∧
    ((withSpan spanName kind attrs body
        (Except.error (Thrown.nonErr val) : Except Thrown T)).1).statusMessage
      = some "Unknown error" ∧
    Thrown.nonErr val ∈
      ((withSpan spanName kind attrs body
        (Except.error (Thrown.nonErr val) : Except Thrown T)).1).exceptions := by
  refine ⟨rfl, rfl, rfl, ?_⟩
  show Thrown.nonErr val ∈
    ((startSpan spanName kind attrs).applyAll body).exceptions ++ [Thrown.nonErr val]
  simp

/-- C3, counterexample: a wrapped function that explicitly sets the
terminal status `ERROR` on its span and then returns normally does not
keep that status — `withSpan` overwrites it with `OK` on the normal
return path, contradicting the claim that an explicitly-set terminal
status is preserved. -/
theorem withSpan_ok_overwrites_explicit_error_status :
    ((withSpan "op" Kind.INTERNAL []
        [SpanAction.setStatus StatusCode.ERROR (some "boom")]
        (Except.ok (0 : Nat))).1).statusCode = StatusCode.OK ∧
    ¬ ((withSpan "op" Kind.INTERNAL []
        [SpanAction.setStatus StatusCode.ERROR (some "boom")]
        (Except.ok (0 : Nat))).1).statusCode = StatusCode.ERROR := by
  constructor <;> decide

/-- C3, amended: when the wrapped function returns normally, `withSpan`
unconditionally sets the span status to `OK` (with no message),
overwriting any status the wrapped function may have set — the last
status write before finalization wins, and the lifecycle's `OK` is that
last write. -/
theorem withSpan_normal_return_sets_ok {T : Type} (spanName : String) (kind : Kind)
    (attrs : List (String × AttrValue)) (body : List SpanAction) (v : T) :
    ((withSpan spanName kind attrs body (Except.ok v : Except Thrown T)).1).statusCode
      = StatusCode.OK ∧
    ((withSpan spanName kind attrs body (Except.ok v : Except Thrown T)).1).statusMessage
      = none := by
  exact ⟨rfl, rfl⟩

/-- C10: every span helper — `addSpanAttribute`, `addSpanAttributes`,
`addSpanEvent`, `recordException`, `setSpanStatus` — called when no span
is active returns normally with no effect on any span.  The embedding is
a total function, so no call can throw. -/
theorem hasHeader_append (a b : List (String × String)) (k : String) :
    hasHeader (a ++ b) k = (hasHeader a k || hasHeader b k) := by
  simp [hasHeader]

theorem corrSegment_disabled (opts : TracingMiddlewareOptions) (cid : Option String)
    (h : opts.addCorrelationIdToResponse = false) : corrSegment opts cid = [] := by
  simp [corrSegment, h]

theorem traceSegment_disabled (opts : TracingMiddlewareOptions) (t : Option String)
    (h : opts.addTraceIdToResponse = false) : traceSegment opts t = [] := by
  simp [traceSegment, h]

theorem corrSegment_other_key (opts : TracingMiddlewareOptions) (cid : Option String)
    (k : String) (h : k ≠ opts.correlationIdHeader) :
    hasHeader (corrSegment opts cid) k = false := by
  unfold corrSegment
  split
  · simp [hasHeader, beq_eq_false_iff_ne, Ne.symm h]
  · rfl

theorem traceSegment_other_key (opts : TracingMiddlewareOptions) (t : Option String)
    (k : String) (h : k ≠ "x-trace-id") :
    hasHeader (traceSegment opts t) k = false := by
  unfold traceSegment
  split
  · simp [hasHeader, beq_eq_false_iff_ne, Ne.symm h]
  · rfl

/-- C5: when the response finishes, the middleware's finish callback
records the final status code as the span attribute
`http.response.status_code` and sets the span status to `ERROR` exactly
when the code is `>= 500`; for every other code — 4xx client errors such
as 404 included — it sets status `OK`. -/
theorem middleware_finish_status (code : Nat) (s : Span) :
    ((onResponseFinish code (some s)).map Span.statusCode
        = some (if 500 ≤ code then StatusCode.ERROR else StatusCode.OK)) ∧
    (((onResponseFinish code (some s)).map Span.statusCode = some StatusCode.ERROR)
        ↔ 500 ≤ code) ∧
    ((onResponseFinish code (some s)).bind
        (fun sp => sp.getAttribute "http.response.status_code")
      = some (AttrValue.num (Int.ofNat code))) := by
  by_cases h5 : 500 ≤ code
  · simp [onResponseFinish, addSpanAttributes, setSpanStatus, getCurrentSpan,
      Span.setAttrBatch, Span.setStatus, Span.getAttribute, List.lookup, h5]
  · by_cases h4 : 400 ≤ code <;>
      simp [onResponseFinish, addSpanAttributes, setSpanStatus, getCurrentSpan,
        Span.setAttrBatch, Span.setStatus, Span.getAttribute, List.lookup, h5, h4]

/-- C6, counterexample: the configured correlation header name is used
only for the response header, never for extraction.  With the middleware
configured to use the header `x-custom-corr` and a request carrying
`x-custom-corr: abc`, the installed correlation id is a freshly generated
one, not `abc` — the claim that the correlation id is taken from the
configured request header when present is false. -/
theorem correlationId_not_taken_from_configured_header :
    ¬ ((runMiddleware ⟨"x-custom-corr", true, true, true⟩
          [("x-custom-corr", "abc")] 0 none none).installedContext.correlationId
        = some "abc") ∧
    (runMiddleware ⟨"x-custom-corr", true, true, true⟩
          [("x-custom-corr", "abc")] 0 none none).installedContext.correlationId
        = some (generateCorrelationId 0) := by
  constructor <;> decide

/-- C6, amended: the request id installed in the trace context and
written to the `x-request-id` response header is always a fresh generator
output, and the middleware never reads an inbound `x-request-id` header
(its whole result is invariant under one); the correlation id is taken
from the default `x-correlation-id` request header (case-insensitively)
whenever it is present with a non-empty value — the configured header
name only controls the response header — and is freshly generated when
the extracted value is absent or empty and generation is enabled. -/
theorem requestId_fresh_correlationId_from_default_header
    (opts : TracingMiddlewareOptions) (reqHeaders : List (String × String))
    (entropy : Nat) (activeSpanTraceId extractedUserId : Option String) (v : String) :
    ((runMiddleware opts reqHeaders entropy activeSpanTraceId
        extractedUserId).installedContext.requestId
      = some (generateCorrelationId (entropy + 1))) ∧
    (("x-request-id", generateCorrelationId (entropy + 1)) ∈
      (runMiddleware opts reqHeaders entropy activeSpanTraceId
        extractedUserId).responseHeaders) ∧
    (runMiddleware opts (("x-request-id", v) :: reqHeaders) entropy activeSpanTraceId
        extractedUserId
      = runMiddleware opts reqHeaders entropy activeSpanTraceId extractedUserId) ∧
    (∀ c : String, extractCorrelationId reqHeaders = some c → c ≠ "" →
      (runMiddleware opts reqHeaders entropy activeSpanTraceId
          extractedUserId).installedContext.correlationId = some c) ∧
    (truthy (extractCorrelationId reqHeaders) = false →
      opts.generateCorrelationId = true →
      (runMiddleware opts reqHeaders entropy activeSpanTraceId
          extractedUserId).installedContext.correlationId
        = some (generateCorrelationId entropy)) := by
  refine ⟨rfl, ?_, ?_, ?_, ?_⟩
  · simp [runMiddleware, List.mem_append]
  · have h1 : extractCorrelationId (("x-request-id", v) :: reqHeaders)
        = extractCorrelationId reqHeaders := by
      unfold extractCorrelationId lookupHeaderCI
      rw [List.find?_cons_of_neg]
      show ¬(lowerChars "x-request-id" == lowerChars "x-correlation-id") = true
      decide
    have h2 : lookupHeaderCI (("x-request-id", v) :: reqHeaders) "traceparent"
        = lookupHeaderCI reqHeaders "traceparent" := by
      unfold lookupHeaderCI
      rw [List.find?_cons_of_neg]
      show ¬(lowerChars "x-request-id" == lowerChars "traceparent") = true
      decide
    simp only [runMiddleware, h1, h2]
  · intro c hc hne
    have ht : truthy (some c) = true := by
      show (c != "") = true
      exact bne_iff_ne.mpr hne
    simp [runMiddleware, hc, ht]
  · intro hf hg
    simp [runMiddleware, hf, hg]

/-- C6, witness. -/
theorem requestId_fresh_correlationId_witness :
    (runMiddleware ⟨"x-correlation-id", true, true, true⟩
        [("X-Correlation-Id", "abc")] 0 none none).installedContext.correlationId
      = some "abc" ∧
    (runMiddleware ⟨"x-correlation-id", true, true, true⟩
        [("X-Correlation-Id", "abc")] 0 none none).installedContext.requestId
      = some (generateCorrelationId 1) := by
  have h := requestId_fresh_correlationId_from_default_header
    ⟨"x-correlation-id", true, true, true⟩ [("X-Correlation-Id", "abc")] 0 none none "w"
  exact ⟨h.2.2.2.1 "abc" (by decide) (by decide), h.1⟩

/-- C7, counterexample: no configuration option disables the
`x-request-id` response header.  Disabling each of the three boolean
options individually — and all of them together — still leaves
`x-request-id` written, so the claim that each of the three response
headers is individually toggle-able is false. -/
theorem requestId_header_not_toggleable :
    hasHeader (runMiddleware ⟨"x-correlation-id", false, true, true⟩
        [] 0 none none).responseHeaders "x-request-id" = true ∧
    hasHeader (runMiddleware ⟨"x-correlation-id", true, false, true⟩
        [] 0 none none).responseHeaders "x-request-id" = true ∧
    hasHeader (runMiddleware ⟨"x-correlation-id", true, true, false⟩
        [] 0 none none).responseHeaders "x-request-id" = true ∧
    hasHeader (runMiddleware ⟨"x-correlation-id", false, false, false⟩
        [] 0 none none).responseHeaders "x-request-id" = true := by
  refine ⟨?_, ?_, ?_, ?_⟩ <;> decide

/-- C7, amended: of the three response headers, the configurable
correlation header and `x-trace-id` are individually toggle-able
(`addCorrelationIdToResponse` and `addTraceIdToResponse` respectively),
but `x-request-id` is written unconditionally on every request: no
configuration disables it. -/
theorem response_header_toggles
    (opts : TracingMiddlewareOptions) (reqHeaders : List (String × String))
    (entropy : Nat) (activeSpanTraceId extractedUserId : Option String)
    (hc1 : opts.correlationIdHeader ≠ "x-request-id")
    (hc2 : opts.correlationIdHeader ≠ "x-trace-id") :
    hasHeader (runMiddleware opts reqHeaders entropy activeSpanTraceId
        extractedUserId).responseHeaders "x-request-id" = true ∧
    (opts.addCorrelationIdToResponse = false →
      hasHeader (runMiddleware opts reqHeaders entropy activeSpanTraceId
          extractedUserId).responseHeaders opts.correlationIdHeader = false) ∧
    (opts.addTraceIdToResponse = false →
      hasHeader (runMiddleware opts reqHeaders entropy activeSpanTraceId
          extractedUserId).responseHeaders "x-trace-id" = false) := by
  refine ⟨?_, ?_, ?_⟩
  · simp [runMiddleware, hasHeader]
  · intro hoff
    show hasHeader (_ ++ _ ++ _) _ = false
    rw [hasHeader_append, hasHeader_append,
      corrSegment_disabled _ _ hoff,
      traceSegment_other_key _ _ _ hc2]
    simp [hasHeader, beq_eq_false_iff_ne, Ne.symm hc1]
  · intro hoff
    show hasHeader (_ ++ _ ++ _) _ = false
    rw [hasHeader_append, hasHeader_append,
      traceSegment_disabled _ _ hoff,
      corrSegment_other_key _ _ _ (Ne.symm hc2)]
    simp [hasHeader]

/-- C7, amended-theorem witness. -/
theorem response_header_toggles_witness :
    hasHeader (runMiddleware ⟨"x-correlation-id", true, false, false⟩
        [] 0 none none).responseHeaders "x-request-id" = true ∧
    hasHeader (runMiddleware ⟨"x-correlation-id", true, false, false⟩
        [] 0 none none).responseHeaders "x-correlation-id" = false ∧
    hasHeader (runMiddleware ⟨"x-correlation-id", true, false, false⟩
        [] 0 none none).responseHeaders "x-trace-id" = false := by
  have h := response_header_toggles ⟨"x-correlation-id", true, false, false⟩
    [] 0 none none (by decide) (by decide)
  exact ⟨h.1, h.2.1 rfl, h.2.2 rfl⟩

theorem span_helpers_noop_without_active_span (k : String) (v : AttrValue)
    (kvs : List (String × AttrValue)) (n : String) (evAttrs : List (String × AttrValue))
    (e : Thrown) (excAttrs : List (String × AttrValue)) (c : StatusCode)
    (m : Option String) :
    addSpanAttribute none k v = none ∧
    addSpanAttributes none kvs = none ∧
    addSpanEvent none n evAttrs = none ∧
    recordException none e excAttrs = none ∧
    setSpanStatus none c m = none := by
  exact ⟨rfl, rfl, rfl, rfl, rfl⟩

/-- C4: for a received message whose application properties contain no
`correlationId`, the wrapped handler generates a fresh, non-empty
correlation id and exposes it to the user handler through the handler
context; the handler runs inside a CONSUMER-kind span named
`consume {eventType}` by default when a (truthy) `eventType` property is
present, and the span name is overridable via the options. -/
theorem serviceBus_missing_correlation_generated {T : Type}
    (additionalAttributes : Option (SBMessage → List (String × AttrValue)))
    (handler : SBMessage → MessageHandlerContext → List SpanAction × Except Thrown T)
    (msg : SBMessage) (entropy : Nat) (et : String)
    (h1 : msg.applicationProperties.lookup "correlationId" = none)
    (h2 : msg.applicationProperties.lookup "eventType" = some et)
    (h3 : et ≠ "") :
    ((withServiceBusTracing SBSpanName.unset additionalAttributes handler msg
        entropy).handlerContext.correlationId
      = some (generateCorrelationId entropy)) ∧
    generateCorrelationId entropy ≠ "" ∧
    (((withServiceBusTracing SBSpanName.unset additionalAttributes handler msg
        entropy).span).kind = Kind.CONSUMER) ∧
    (((withServiceBusTracing SBSpanName.unset additionalAttributes handler msg
        entropy).span).name = "consume " ++ et) ∧
    ((withServiceBusTracing SBSpanName.unset additionalAttributes handler msg
        entropy).outcome
      = (handler msg (withServiceBusTracing SBSpanName.unset additionalAttributes
          handler msg entropy).handlerContext).2) ∧
    (∀ s : String, s ≠ "" →
      ((withServiceBusTracing (SBSpanName.fixed s) additionalAttributes handler msg
          entropy).span).name = s) := by
  have hb : (et == "") = false := beq_eq_false_iff_ne.mpr h3
  refine ⟨?_, generateCorrelationId_ne_empty entropy, ?_, ?_, ?_, ?_⟩
  · simp [withServiceBusTracing, extractTraceFromServiceBusMessage, h1, truthy]
  · simp only [withServiceBusTracing]
    exact withSpan_kind _ _ _ _ _
  · simp only [withServiceBusTracing]
    rw [withSpan_name]
    simp [resolveSBSpanName, extractTraceFromServiceBusMessage, h1, h2, truthy, orTruthy, hb]
  · simp only [withServiceBusTracing]
    exact withSpan_outcome _ _ _ _ _
  · intro s hs
    have hsb : (s == "") = false := beq_eq_false_iff_ne.mpr hs
    simp only [withServiceBusTracing]
    rw [withSpan_name]
    simp [resolveSBSpanName, hsb]

/-- C4, witness. -/
theorem serviceBus_missing_correlation_generated_witness :
    ((withServiceBusTracing SBSpanName.unset none
        (fun _ _ => ([], Except.ok (0 : Nat)))
        ⟨[("eventType", "user.created")], some "m1", none, none, some 1⟩
        5).handlerContext.correlationId
      = some (generateCorrelationId 5)) ∧
    (((withServiceBusTracing SBSpanName.unset none
        (fun _ _ => ([], Except.ok (0 : Nat)))
        ⟨[("eventType", "user.created")], some "m1", none, none, some 1⟩
        5).span).kind = Kind.CONSUMER) ∧
    (((withServiceBusTracing SBSpanName.unset none
        (fun _ _ => ([], Except.ok (0 : Nat)))
        ⟨[("eventType", "user.created")], some "m1", none, none, some 1⟩
        5).span).name = "consume user.created") := by
  have h := serviceBus_missing_correlation_generated none
      (fun _ _ => ([], Except.ok (0 : Nat)))
      ⟨[("eventType", "user.created")], some "m1", none, none, some 1⟩ 5 "user.created"
      (by decide) (by decide) (by decide)
  exact ⟨h.1, h.2.2.1, h.2.2.2.1⟩

theorem splitOnDash_no_dash (a : List Char) (h : ∀ c ∈ a, c ≠ '-') :
    splitOnDash a = [a] := by
  induction a with
  | nil => rfl
  | cons c cs ih =>
      have hc : c ≠ '-' := h c (List.mem_cons_self c cs)
      have hcs : ∀ x ∈ cs, x ≠ '-' := fun x hx => h x (List.mem_cons_of_mem c hx)
      simp [splitOnDash, hc, ih hcs]

theorem splitOnDash_append (a b : List Char) (h : ∀ c ∈ a, c ≠ '-') :
    splitOnDash (a ++ '-' :: b) = a :: splitOnDash b := by
  induction a with
  | nil => simp [splitOnDash]
  | cons c cs ih =>
      have hc : c ≠ '-' := h c (List.mem_cons_self c cs)
      have hcs : ∀ x ∈ cs, x ≠ '-' := fun x hx => h x (List.mem_cons_of_mem c hx)
      simp [splitOnDash, hc, ih hcs]

theorem all_hex_no_dash (l : List Char) (h : l.all isLowerHexDigit = true) :
    ∀ c ∈ l, c ≠ '-' := by
  intro c hc heq
  have hhex := List.all_eq_true.mp h c hc
  rw [heq] at hhex
  exact absurd hhex (by decide)

/-- C8: the traceparent parser accepts exactly the W3C shape
`{2-hex version}-{32-hex trace-id}-{16-hex parent-id}-{2-hex flags}` with
a non-all-zero trace id and returns the 32-hex trace id; it returns
nothing when the header is absent, when the field count is wrong, when
the version field is malformed, or when the trace id is the all-zero
sentinel; and for every input it yields a plain optional result — the
model is total, so no input can make it throw. -/
theorem parseTraceparent_spec :
    (∀ v t p f : List Char,
      v.all isLowerHexDigit = true → v.length = 2 →
      t.all isLowerHexDigit = true → t.length = 32 →
      t.all (· == '0') = false →
      p.all isLowerHexDigit = true → p.length = 16 →
      f.all isLowerHexDigit = true → f.length = 2 →
      ∀ h : String, h.data = v ++ '-' :: (t ++ '-' :: (p ++ '-' :: f)) →
      extractTraceIdFromTraceparent (some h) = some (String.mk t)) ∧
    extractTraceIdFromTraceparent none = none ∧
    (∀ h : String, (splitOnDash h.data).length ≠ 4 →
      extractTraceIdFromTraceparent (some h) = none) ∧
    (∀ v t p f : List Char,
      (∀ c ∈ v, c ≠ '-') → (∀ c ∈ t, c ≠ '-') →
      (∀ c ∈ p, c ≠ '-') → (∀ c ∈ f, c ≠ '-') →
      (v.all isLowerHexDigit && v.length == 2) = false →
      ∀ h : String, h.data = v ++ '-' :: (t ++ '-' :: (p ++ '-' :: f)) →
      extractTraceIdFromTraceparent (some h) = none) ∧
    (∀ v p f : List Char,
      (∀ c ∈ v, c ≠ '-') → (∀ c ∈ p, c ≠ '-') → (∀ c ∈ f, c ≠ '-') →
      ∀ h : String,
      h.data = v ++ '-' :: (List.replicate 32 '0' ++ '-' :: (p ++ '-' :: f)) →
      extractTraceIdFromTraceparent (some h) = none) ∧
    (∀ h : Option String, extractTraceIdFromTraceparent h = none ∨
      ∃ t : String, extractTraceIdFromTraceparent h = some t) := by
  refine ⟨?_, rfl, ?_, ?_, ?_, ?_⟩
  · intro v t p f hv hvl ht htl htz hp hpl hf hfl h hdata
    have hnv := all_hex_no_dash v hv
    have hnt := all_hex_no_dash t ht
    have hnp := all_hex_no_dash p hp
    have hnf := all_hex_no_dash f hf
    show parseTraceparentChars h.data = some (String.mk t)
    unfold parseTraceparentChars
    rw [hdata, splitOnDash_append v _ hnv, splitOnDash_append t _ hnt,
      splitOnDash_append p _ hnp, splitOnDash_no_dash f hnf]
    simp [hv, hvl, ht, htl, htz, hp, hpl, hf, hfl]
  · intro h hlen
    show parseTraceparentChars h.data = none
    unfold parseTraceparentChars
    rcases hsp : splitOnDash h.data with _ | ⟨a, _ | ⟨b, _ | ⟨c, _ | ⟨d, _ | ⟨e, rest⟩⟩⟩⟩⟩ <;>
      first
        | exact absurd (by rw [hsp]; rfl) hlen
        | rfl
  · intro v t p f hnv hnt hnp hnf hbad h hdata
    show parseTraceparentChars h.data = none
    unfold parseTraceparentChars
    rw [hdata, splitOnDash_append v _ hnv, splitOnDash_append t _ hnt,
      splitOnDash_append p _ hnp, splitOnDash_no_dash f hnf]
    simp [hbad]
  · intro v p f hnv hnp hnf h hdata
    have hnt : ∀ c ∈ List.replicate 32 '0', c ≠ '-' := by decide
    have hz : (List.replicate 32 '0').all (· == '0') = true := by decide
    show parseTraceparentChars h.data = none
    unfold parseTraceparentChars
    rw [hdata, splitOnDash_append v _ hnv, splitOnDash_append _ _ hnt,
      splitOnDash_append p _ hnp, splitOnDash_no_dash f hnf]
    simp [hz]
  · intro h
    rcases hr : extractTraceIdFromTraceparent h with _ | t
    · exact Or.inl rfl
    · exact Or.inr ⟨t, rfl⟩

/-- C8, witness. -/
theorem parseTraceparent_spec_witness :
    extractTraceIdFromTraceparent
        (some "00-4bf92f3577b34da6a3ce929d0e0e4736-00f067aa0ba902b7-01")
      = some "4bf92f3577b34da6a3ce929d0e0e4736" ∧
    extractTraceIdFromTraceparent none = none ∧
    extractTraceIdFromTraceparent (some "00-abc") = none ∧
    extractTraceIdFromTraceparent
        (some "zz-4bf92f3577b34da6a3ce929d0e0e4736-00f067aa0ba902b7-01")
      = none ∧
    extractTraceIdFromTraceparent
        (some "00-00000000000000000000000000000000-00f067aa0ba902b7-01")
      = none := by
  refine ⟨?_, parseTraceparent_spec.2.1, ?_, ?_, ?_⟩
  · exact parseTraceparent_spec.1 "00".data "4bf92f3577b34da6a3ce929d0e0e4736".data
      "00f067aa0ba902b7".data "01".data
      (by decide) (by decide) (by decide) (by decide) (by decide)
      (by decide) (by decide) (by decide) (by decide)
      "00-4bf92f3577b34da6a3ce929d0e0e4736-00f067aa0ba902b7-01" (by decide)
  · exact parseTraceparent_spec.2.2.1 "00-abc" (by decide)
  · exact parseTraceparent_spec.2.2.2.1 "zz".data
      "4bf92f3577b34da6a3ce929d0e0e4736".data "00f067aa0ba902b7".data "01".data
      (by decide) (by decide) (by decide) (by decide) (by decide)
      "zz-4bf92f3577b34da6a3ce929d0e0e4736-00f067aa0ba902b7-01" (by decide)
  · exact parseTraceparent_spec.2.2.2.2.1 "00".data "00f067aa0ba902b7".data "01".data
      (by decide) (by decide) (by decide)
      "00-00000000000000000000000000000000-00f067aa0ba902b7-01" (by decide)

end Tracing
